import Mathlib

/-!
Shallow embedding of the video-generation job-orchestration subsystem of the
repository (backend/app/services/video_generation_service.py,
backend/app/services/dashscope_service.py, backend/app/api/video_generation.py).

External collaborators (the httpx HTTP client, the filesystem, the base64
library, the ffmpeg subprocess, the clock) are modelled as explicit
environment parameters; everything else is translated directly from the
Python source.
-/

namespace VideoGen

/-! ## Planner / Segmenter
`VideoGenerationService._generate_long_video_aliyun`, lines 162-179:
the while-loop splitting `duration` into 10s/5s chunks, merging a
remainder smaller than 5 into the last chunk.  The loop is embedded with a
fuel argument (the Python loop terminates because `remaining` shrinks by at
least 5 on every iteration that recurses; fuel = `remaining` is ample). -/

def segLoop : Nat → Nat → List Nat → List Nat
  | 0, _, acc => acc
  | fuel + 1, remaining, acc =>
    if remaining = 0 then acc
    else if 10 ≤ remaining then segLoop fuel (remaining - 10) (acc ++ [10])
    else if 5 ≤ remaining then segLoop fuel (remaining - 5) (acc ++ [5])
    else
      -- remainder < 5: merged into the last segment (then `remaining = 0`
      -- in the source, so the loop exits)
      match acc with
      | [] => [remaining]
      | _ :: _ => acc.dropLast ++ [acc.getLast! + remaining]

/-- The `segment_durations` list computed by `_generate_long_video_aliyun`. -/
def segmentDurations (duration : Nat) : List Nat :=
  segLoop duration duration []

/-- Embeds `VideoGenerationService._generate_with_aliyun`, lines 107-135:
`max_single_duration = 10`; a request of at most 10 seconds becomes one
provider call of exactly `duration` seconds, otherwise the segmentation
loop runs. -/
def plannedSegments (duration : Nat) : List Nat :=
  if duration ≤ 10 then [duration] else segmentDurations duration

example : plannedSegments 16 = [10, 6] := by decide
example : plannedSegments 11 = [11] := by decide
example : plannedSegments 20 = [10, 10] := by decide
example : plannedSegments 15 = [10, 5] := by decide

/-! ## Remote Task Client (DashScopeService), model capability tables
`dashscope_service.py` lines 54-94. -/

structure ModelInfo where
  resolutions : List String
  durations : List Nat
  supports_audio : Bool
  fps : Nat
deriving DecidableEq

def t2v_models : List (String × ModelInfo) :=
  [("wan2.5-t2v-preview", ⟨["480P", "720P", "1080P"], [5, 10], true, 24⟩),
   ("wan2.2-t2v-plus", ⟨["480P", "1080P"], [5], false, 30⟩)]

def i2v_models : List (String × ModelInfo) :=
  [("wan2.5-i2v-preview", ⟨["480P", "720P", "1080P"], [5, 10], true, 24⟩),
   ("wan2.2-i2v-flash", ⟨["480P", "720P", "1080P"], [5], false, 30⟩),
   ("wan2.2-i2v-plus", ⟨["480P", "1080P"], [5], false, 30⟩),
   ("wanx2.1-i2v-turbo", ⟨["480P", "720P"], [3, 4, 5], false, 24⟩)]

/-- Default of `settings.WANX_T2V_MODEL` (config.py line 72). -/
def default_t2v_model : String := "wan2.5-t2v-preview"

/-- Default of `settings.WANX_I2V_MODEL` (config.py line 73). -/
def default_i2v_model : String := "wan2.5-i2v-preview"

/-- Embeds `DashScopeService._get_resolution_size`, lines 109-116. -/
def get_resolution_size (resolution : String) : String :=
  if resolution = "480P" then "832*480"
  else if resolution = "720P" then "1280*720"
  else if resolution = "1080P" then "1920*1080"
  else "832*480"

/-- Python `str.startswith`, computably over the character list. -/
def strStartsWith (s pre : String) : Bool := pre.data.isPrefixOf s.data

/-- Greedy left-to-right scan for Python `str.split(sep)` with a nonempty
separator; structurally recursive on fuel (one unit per consumed
character, so `s.length` is always enough). -/
def splitOnAuxL (sep : List Char) : Nat → List Char → List Char → List (List Char)
  | _, [], acc => [acc]
  | 0, s, acc => [acc ++ s]
  | fuel + 1, c :: rest, acc =>
    if sep.isPrefixOf (c :: rest) then
      acc :: splitOnAuxL sep fuel (List.drop (sep.length - 1) rest) []
    else splitOnAuxL sep fuel rest (acc ++ [c])

/-- Python `str.split(sep)` for nonempty `sep` (the only use in the
source). -/
def strSplitOn (s sep : String) : List String :=
  if sep = "" then [s]
  else (splitOnAuxL sep.data s.data.length s.data []).map (fun l => ⟨l⟩)

/-- Python `str.lower`, computably over the character list. -/
def strToLower (s : String) : String := ⟨s.data.map Char.toLower⟩

/-- Models `os.path.splitext(...)[1].lower()` for ordinary `stem.ext` file names
(the only shape produced by the code paths modelled here). -/
def extOf (filename : String) : String :=
  let parts := strSplitOn filename "."
  if parts.length ≤ 1 then "" else strToLower ("." ++ parts.getLast!)

/-- The `mime_type_map` dict lookup with default `"image/jpeg"`
(dashscope_service.py lines 354-361 and 379-386). -/
def mime_type_map (ext : String) : String :=
  if ext = ".jpg" then "image/jpeg"
  else if ext = ".jpeg" then "image/jpeg"
  else if ext = ".png" then "image/png"
  else if ext = ".gif" then "image/gif"
  else if ext = ".webp" then "image/webp"
  else "image/jpeg"

/-! ### Task-creation HTTP environment
One outcome per `client.post` attempt, standing for the httpx call:
a completed HTTP response (status code plus the parsed
`output.task_id`, if any), or one of the exceptions the source handles. -/

inductive HttpOutcome where
  | ok (statusCode : Nat) (taskId : Option String)
  | connectError
  | remoteProtocolError
  | timedOut
  | otherExc (msg : String)
deriving DecidableEq

/-- Request `parameters` object built by both creation functions:
`size`, `duration`, `prompt_extend`, and `audio` only when the model
supports audio (lines 183-197 and 329-398). -/
structure VideoParams where
  size : String
  duration : Nat
  prompt_extend : Bool
  audio : Option Bool
deriving DecidableEq

structure T2VRequest where
  model : String
  prompt : String
  parameters : VideoParams
deriving DecidableEq

structure I2VInput where
  img_url : String
  prompt : Option String
deriving DecidableEq

structure I2VRequest where
  model : String
  input : I2VInput
  parameters : VideoParams
deriving DecidableEq

/-- The result dicts a creation function can return, one constructor per
`return {...}` shape of the source; `created` carries the request body that
was sent, so theorems can talk about what reached the provider. -/
inductive CreateResult (β : Type) where
  | apiKeyMissing
  | unsupportedModel (model : String)
  | unsupportedDuration (model : String) (duration : Nat)
  | unsupportedResolution (model : String) (resolution : String)
  | localImageReadError
  | httpError (code : Nat)
  | noTaskId
  | timeoutError
  | otherError (msg : String)
  | created (taskId : String) (body : β)
deriving DecidableEq

/-- Embeds `DashScopeService.generate_text_to_video`, lines 118-240.
`env n` is the outcome of the (n+1)-th HTTP attempt; the second component
of the result is the number of HTTP attempts made.  The source makes a
single `client.post` call with no retry of any kind: every exception maps
straight to an error return (`except httpx.TimeoutException` lines 231-235,
generic `except Exception` lines 236-240). -/
def generate_text_to_video (apiKeyConfigured : Bool) (env : Nat → HttpOutcome)
    (prompt : String) (resolution : String) (duration : Nat)
    (model : Option String) (audio : Bool) (prompt_extend : Bool) :
    CreateResult T2VRequest × Nat :=
  if ¬ apiKeyConfigured then (.apiKeyMissing, 0)
  else
    let model_name := model.getD default_t2v_model
    match t2v_models.lookup model_name with
    | none => (.unsupportedModel model_name, 0)
    | some model_info =>
      if duration ∉ model_info.durations then
        (.unsupportedDuration model_name duration, 0)
      else if resolution ∉ model_info.resolutions then
        (.unsupportedResolution model_name resolution, 0)
      else
        -- `if not model_info["supports_audio"] and audio: audio = False`
        let audio := if ¬ model_info.supports_audio ∧ audio then false else audio
        let params : VideoParams :=
          { size := get_resolution_size resolution
            duration := duration
            prompt_extend := prompt_extend
            audio := if model_info.supports_audio then some audio else none }
        match env 0 with
        | .ok 200 (some task_id) =>
            (.created task_id ⟨model_name, prompt, params⟩, 1)
        | .ok 200 none => (.noTaskId, 1)
        | .ok code _ => (.httpError code, 1)
        | .timedOut => (.timeoutError, 1)
        | .connectError => (.otherError "ConnectError", 1)
        | .remoteProtocolError => (.otherError "RemoteProtocolError", 1)
        | .otherExc msg => (.otherError msg, 1)

/-! ### I2V creation retry loop
`generate_image_to_video`, lines 453-533: `for attempt in range(3)` with
`max_retries = 3`.  502 responses and non-200/non-fatal responses retry
until the attempts are exhausted; 400/401/403/404 return immediately;
`httpx.ConnectError` / `httpx.RemoteProtocolError` retry and re-raise on
the last attempt; `httpx.TimeoutException` and any other exception are NOT
caught by the inner `except` clause and propagate to the outer handlers at
once.  Embedded structurally on the number of attempts left
(`fuel = 3 - attempt`); `exhausted` is unreachable from `fuel = 3` because
every branch returns on the last attempt. -/

inductive LoopOut where
  | fatal (code : Nat)
  | bad502
  | badOther (code : Nat)
  | connRaised
  | protoRaised
  | timeoutRaised
  | otherRaised (msg : String)
  | success (taskId : Option String)
  | exhausted
deriving DecidableEq

def i2vLoop (env : Nat → HttpOutcome) : Nat → LoopOut × Nat
  | 0 => (.exhausted, 3)
  | fuel + 1 =>
    let attempt := 2 - fuel
    match env attempt with
    | .timedOut => (.timeoutRaised, attempt + 1)
    | .otherExc msg => (.otherRaised msg, attempt + 1)
    | .connectError =>
        if 1 ≤ fuel then i2vLoop env fuel else (.connRaised, 3)
    | .remoteProtocolError =>
        if 1 ≤ fuel then i2vLoop env fuel else (.protoRaised, 3)
    | .ok code taskId =>
        if code = 502 then
          if 1 ≤ fuel then i2vLoop env fuel else (.bad502, 3)
        else if code = 200 then (.success taskId, attempt + 1)
        else if code = 400 ∨ code = 401 ∨ code = 403 ∨ code = 404 then
          (.fatal code, attempt + 1)
        else if 1 ≤ fuel then i2vLoop env fuel else (.badOther code, 3)

/-- The `img_url` value placed into the request body by
`generate_image_to_video`, lines 299-314 and 339-390.
`fs` is the filesystem (path to file bytes, `none` when the file does not
exist), `b64` the `base64.b64encode(...).decode()` library call, and
`mediaDir` the `backend/media/images` directory both the API handler and
this function compute from their own `__file__`. -/
def i2v_img_url (b64 : List Nat → String) (fs : String → Option (List Nat))
    (mediaDir : String) (image_url : String) :
    Except Unit String :=
  -- lines 301-314: a non-http, existing local path is pre-read into
  -- `image_data` (the source's read-exception return is the `.error` case;
  -- in this model filesystem reads of existing files succeed, so it is
  -- never produced)
  let image_data : Option String :=
    if image_url ≠ "" ∧ ¬ strStartsWith image_url "http" then
      (fs image_url).map b64
    else none
  if image_url ≠ "" ∧
      (strStartsWith image_url "http://localhost" ∨
        strStartsWith image_url "http://127.0.0.1") then
    -- lines 342-375: a localhost URL is resolved back to the local file
    -- and inlined as a MIME-tagged base64 data URI
    let parts := strSplitOn image_url "/media/images/"
    if 2 ≤ parts.length then
      let filename := parts.getLast!
      let local_path := mediaDir ++ "/" ++ filename
      match fs local_path with
      | some bytes =>
          let file_ext := if extOf filename = "" then ".jpg" else extOf filename
          .ok ("data:" ++ mime_type_map file_ext ++ ";base64," ++ b64 bytes)
      | none => .ok image_url
    else .ok image_url
  else
    match image_data with
    | some data =>
        -- lines 376-388
        let file_ext := if image_url ≠ "" then extOf image_url else ".jpg"
        .ok ("data:" ++ mime_type_map file_ext ++ ";base64," ++ data)
    | none => .ok image_url

/-- Embeds `DashScopeService.generate_image_to_video`, lines 242-622: API-key and
capability validation, audio coercion, image transport resolution, then the
bounded retry loop; the outer exception handlers map the re-raised or
uncaught exceptions to the source's error dicts.  Second component: number
of HTTP attempts made. -/
def generate_image_to_video (apiKeyConfigured : Bool)
    (b64 : List Nat → String) (fs : String → Option (List Nat))
    (mediaDir : String) (env : Nat → HttpOutcome)
    (image_url : String) (prompt : Option String) (resolution : String)
    (duration : Nat) (model : Option String) (audio : Bool)
    (prompt_extend : Bool) : CreateResult I2VRequest × Nat :=
  if ¬ apiKeyConfigured then (.apiKeyMissing, 0)
  else
    let model_name := model.getD default_i2v_model
    match i2v_models.lookup model_name with
    | none => (.unsupportedModel model_name, 0)
    | some model_info =>
      if duration ∉ model_info.durations then
        (.unsupportedDuration model_name duration, 0)
      else if resolution ∉ model_info.resolutions then
        (.unsupportedResolution model_name resolution, 0)
      else
        let audio := if ¬ model_info.supports_audio ∧ audio then false else audio
        match i2v_img_url b64 fs mediaDir image_url with
        | .error _ => (.localImageReadError, 0)
        | .ok img_url =>
          let params : VideoParams :=
            { size := get_resolution_size resolution
              duration := duration
              prompt_extend := prompt_extend
              audio := if model_info.supports_audio then some audio else none }
          let body : I2VRequest := ⟨model_name, ⟨img_url, prompt⟩, params⟩
          match i2vLoop env 3 with
          | (.success (some task_id), n) => (.created task_id body, n)
          | (.success none, n) => (.noTaskId, n)
          | (.fatal code, n) => (.httpError code, n)
          | (.bad502, n) => (.httpError 502, n)
          | (.badOther code, n) => (.httpError code, n)
          | (.timeoutRaised, n) => (.timeoutError, n)
          | (.connRaised, n) => (.otherError "ConnectError", n)
          | (.protoRaised, n) =>
              (.otherError "Server disconnected without sending a response.", n)
          | (.otherRaised msg, n) => (.otherError msg, n)
          | (.exhausted, n) => (.otherError "unreachable", n)

/-! ## Task status queries
`DashScopeService.get_task_status`, lines 624-704.  The returned dict is
modelled by the fields its callers read: `status` (absent on query
failures), `error`, `local_path`, `usage` (an opaque blob). -/

structure StatusResult where
  status : Option String := none
  error : Option String := none
  local_path : Option String := none
  usage : Option String := none
deriving DecidableEq

/-- The provider's `output` object for a task query, plus the exceptional
outcomes of the HTTP GET. -/
structure TaskOutput where
  task_status : String
  video_url : Option String
  message : Option String
  usage : Option String
deriving DecidableEq

inductive QueryOutcome where
  | ok (output : TaskOutput)
  | httpError (code : Nat)
  | timedOut
  | exc (msg : String)
deriving DecidableEq

/-- Embeds `get_task_status` over a query outcome and the `_download_video`
result (`download = none` models a failed or skipped download, lines
666-681). -/
def get_task_status (apiKeyConfigured : Bool) (resp : QueryOutcome)
    (download : Option String) : StatusResult :=
  if ¬ apiKeyConfigured then { error := some "DASHSCOPE_API_KEY未配置" }
  else
    match resp with
    | .httpError code => { error := some ("查询任务失败: " ++ toString code) }
    | .timedOut => { error := some "请求超时" }
    | .exc msg => { error := some msg }
    | .ok output =>
      let base : StatusResult := { status := some output.task_status }
      if output.task_status = "SUCCEEDED" then
        match output.video_url with
        | some _ =>
          match download with
          | some local_path =>
              { base with local_path := some local_path, usage := output.usage }
          | none => { base with error := some "视频下载失败" }
        | none => { base with error := some "未找到视频URL" }
      else if output.task_status = "FAILED" then
        { base with error := some (output.message.getD "任务执行失败") }
      else base

/-! ## Segment Poller
`VideoGenerationService.wait_and_concatenate_aliyun_tasks`, lines 314-386.
Tasks are polled strictly in list order; `elapsed` is the shared clock
(seconds since `start_time`), advanced by `poll_interval` per sleep; the
deadline test `elapsed > max_wait` runs at the top of every inner
iteration.  `statusEnv tid elapsed` is the `get_task_status` dict observed
for task `tid` at time `elapsed`.  The inner `while True` is embedded with
fuel; `fuelOut` is the (unreachable for adequate fuel) exhaustion
artifact. -/

inductive WaitErr where
  | fuelOut
  | timeout (task_id : String) (completed_segments : Nat)
  | taskFailed (task_id : String) (message : String) (completed_segments : Nat)
  | noLocalPath (task_id : String) (completed_segments : Nat)
deriving DecidableEq

def pollOne (statusEnv : String → Nat → StatusResult)
    (maxWait pollInterval : Nat) (task_id : String) (nCompleted : Nat) :
    Nat → Nat → WaitErr ⊕ (String × Nat)
  | 0, _ => .inl .fuelOut
  | fuel + 1, elapsed =>
    if maxWait < elapsed then .inl (.timeout task_id nCompleted)
    else
      let r := statusEnv task_id elapsed
      if r.error.isSome ∧ r.status ≠ some "PENDING" then
        .inl (.taskFailed task_id (r.error.getD "未知错误") nCompleted)
      else if r.status = some "SUCCEEDED" then
        match r.local_path with
        | some local_path => .inr (local_path, elapsed)
        | none => .inl (.noLocalPath task_id nCompleted)
      else if r.status = some "FAILED" then
        .inl (.taskFailed task_id (r.error.getD "任务执行失败") nCompleted)
      else
        pollOne statusEnv maxWait pollInterval task_id nCompleted fuel
          (elapsed + pollInterval)

/-- The outer `for i, task_id in enumerate(task_ids)` loop, threading the
shared clock and the accumulated `video_paths`. -/
def wait_tasks (statusEnv : String → Nat → StatusResult)
    (maxWait pollInterval fuel : Nat) :
    List String → Nat → List String → WaitErr ⊕ List String
  | [], _, paths => .inr paths
  | task_id :: rest, elapsed, paths =>
    match pollOne statusEnv maxWait pollInterval task_id paths.length fuel
        elapsed with
    | .inl e => .inl e
    | .inr (local_path, elapsed') =>
        wait_tasks statusEnv maxWait pollInterval fuel rest elapsed'
          (paths ++ [local_path])

/-! ## Concatenator
`VideoGenerationService.concatenate_videos`, lines 220-312.  The ffmpeg
subprocess is an environment outcome; `outputExists` is the
`os.path.exists(output_path)` probe after a completed run.  The second
component of the result records whether the temporary concat-list manifest
file still exists when the function returns: the source deletes it only on
the path where `subprocess.run` returns (lines 281-283); the
`TimeoutExpired`, `FileNotFoundError` and generic exception handlers
return without any cleanup. -/

inductive FfmpegOutcome where
  | completed (returncode : Int) (stderr : String)
  | timedOut
  | notInstalled
  | raised (msg : String)
deriving DecidableEq

inductive ConcatResult where
  | emptyList
  | missingInput (path : String)
  | ok (output_path : String)
  | ffmpegFailed (stderr : String)
  | timedOut
  | ffmpegMissing
  | exc (msg : String)
deriving DecidableEq

def concatenate_videos (fsExists : String → Bool) (ffmpeg : FfmpegOutcome)
    (outputExists : Bool) (video_paths : List String)
    (output_path : String) : ConcatResult × Bool :=
  if video_paths = [] then (.emptyList, false)
  else
    match video_paths.find? (fun p => ! fsExists p) with
    | some p => (.missingInput p, false)
    | none =>
      -- the concat-list manifest is written here; from this point on the
      -- Bool tracks whether it is still on disk at return
      match ffmpeg with
      | .completed returncode stderr =>
          -- lines 281-283: cleanup after a completed run
          if returncode = 0 ∧ outputExists then (.ok output_path, false)
          else (.ffmpegFailed stderr, false)
      | .timedOut => (.timedOut, true)
      | .notInstalled => (.ffmpegMissing, true)
      | .raised msg => (.exc msg, true)

/-! ## Result dicts seen by `process_video_generation`
The background worker only inspects `"error" in result`,
`result.get("error")` and `result.get("output_path")`
(video_generation.py lines 68-78); `completed_segments` is carried by the
poller's error dicts. -/

structure ResultDict where
  error : Option String := none
  output_path : Option String := none
  completed_segments : Option Nat := none
deriving DecidableEq

def waitErrDict : WaitErr → ResultDict
  | .fuelOut => { error := some "fuelOut (model artifact)" }
  | .timeout _ n => { error := some "任务超时", completed_segments := some n }
  | .taskFailed task_id _ n =>
      { error := some ("任务" ++ task_id ++ "失败"), completed_segments := some n }
  | .noLocalPath task_id n =>
      { error := some ("任务" ++ task_id ++ "完成但未获取到视频路径")
        completed_segments := some n }

def concatDict : ConcatResult → ResultDict
  | .emptyList => { error := some "视频列表为空" }
  | .missingInput path => { error := some ("视频文件不存在: " ++ path) }
  | .ok output_path => { output_path := some output_path }
  | .ffmpegFailed _ => { error := some "视频拼接失败" }
  | .timedOut => { error := some "视频拼接超时" }
  | .ffmpegMissing => { error := some "ffmpeg未安装" }
  | .exc msg => { error := some msg }

/-- Embeds `wait_and_concatenate_aliyun_tasks` end to end, as the result dict the
background worker receives: poll every task, then (lines 378-386) check the
count and concatenate. -/
def wait_and_concatenate (statusEnv : String → Nat → StatusResult)
    (fsExists : String → Bool) (ffmpeg : FfmpegOutcome) (outputExists : Bool)
    (output_path : String) (maxWait pollInterval fuel : Nat)
    (task_ids : List String) : ResultDict :=
  match wait_tasks statusEnv maxWait pollInterval fuel task_ids 0 [] with
  | .inl e => waitErrDict e
  | .inr paths =>
      if paths.length = task_ids.length then
        (concatDict (concatenate_videos fsExists ffmpeg outputExists paths
          output_path).1)
      else { error := some "部分任务未完成" }

/-! ## Job Ledger
`VideoGenerationJob` (models/video_generation.py) restricted to the fields
the orchestration reads or writes; the immutable request fields
(`user_id`, `mode`, `image_url`, ...) are carried verbatim by the source
and omitted here. -/

inductive JobStatus where
  | pending
  | running
  | concatenating
  | succeeded
  | failed
deriving DecidableEq

structure Job where
  job_id : String
  engine : String
  status : JobStatus
  error_message : Option String := none
  local_path : Option String := none
  usage : Option String := none
  task_ids : List String := []
  completed_at : Option Nat := none
deriving DecidableEq

/-- Embeds `process_video_generation`, video_generation.py lines 49-86: the job
update applied once the background wait-and-concatenate result is in
(`now` is `datetime.utcnow()`). -/
def process_video_generation (job : Job) (result : ResultDict) (now : Nat) :
    Job :=
  match result.error with
  | some e => { job with status := .failed, error_message := some e }
  | none =>
      { job with status := .succeeded, local_path := result.output_path
                 completed_at := some now }

/-! ## Job Status Service
`get_job_status`, video_generation.py lines 431-533. -/

/-- One step of the reconciliation loop body (lines 462-482), threading the
`all_succeeded` / `all_failed` flags and the mutated job record. -/
def reconcileStep (statusEnv : String → StatusResult)
    (acc : Bool × Bool × Job) (task_id : String) : Bool × Bool × Job :=
  let all_succeeded := acc.1
  let all_failed := acc.2.1
  let j := acc.2.2
  let r := statusEnv task_id
  if r.status = some "SUCCEEDED" then
    let j := if j.local_path = none ∧ r.local_path.isSome then
        { j with local_path := r.local_path } else j
    let j := if r.usage.isSome then { j with usage := r.usage } else j
    (all_succeeded, false, j)
  else if r.status = some "FAILED" then
    let j := if j.error_message = none then
        { j with error_message := some (r.error.getD "任务执行失败") } else j
    (false, all_failed, j)
  else (false, false, j)

/-- The reconciliation pass of `get_job_status` (lines 454-495): only for a
non-terminal job with task ids on the aliyun engine; returns the updated
record together with the list of provider task-status queries issued. -/
def reconcile (statusEnv : String → StatusResult) (job : Job) (now : Nat) :
    Job × List String :=
  if (job.status = .pending ∨ job.status = .running ∨
        job.status = .concatenating) ∧
      job.task_ids ≠ [] ∧ job.engine = "aliyun" then
    let st := job.task_ids.foldl (reconcileStep statusEnv) (true, true, job)
    let all_succeeded := st.1
    let all_failed := st.2.1
    let j := st.2.2
    if all_succeeded then
      if job.status = .concatenating then (j, job.task_ids)
      else ({ j with status := .succeeded, completed_at := some now },
            job.task_ids)
    else if all_failed then
      ({ j with status := .failed }, job.task_ids)
    else (j, job.task_ids)
  else (job, [])

/-- Models `os.path.basename` for slash-separated paths. -/
def basename (path : String) : String :=
  (strSplitOn path "/").getLast!

/-- The response dict built by `get_job_status` (lines 497-533), restricted
to the orchestration-relevant keys; the verbatim request echoes
(`prompt`, `duration`, ...) are omitted. -/
structure JobView where
  job_id : String
  status : JobStatus
  video_url : Option String := none
  local_path : Option String := none
  file_size : Option Nat := none
  warning : Option String := none
  error : Option String := none
  usage : Option String := none
  task_ids : List String := []
  completed_at : Option Nat := none
deriving DecidableEq

def buildResponse (fsExists : String → Bool) (fileSize : String → Nat)
    (job : Job) : JobView :=
  let v : JobView :=
    { job_id := job.job_id, status := job.status
      task_ids := job.task_ids, completed_at := job.completed_at }
  let v :=
    if job.status = .succeeded then
      let v :=
        match job.local_path with
        | some lp =>
          if fsExists lp then
            { v with video_url := some ("/media/videos/" ++ basename lp)
                     local_path := some lp, file_size := some (fileSize lp) }
          else { v with warning := some ("视频文件不存在: " ++ lp) }
        | none => v
      if job.usage.isSome then { v with usage := job.usage } else v
    else v
  if job.status = .failed then { v with error := job.error_message } else v

/-- The whole `get_job_status` handler for an existing job: reconcile (a
read that is also a write), then build the view.  Returns the persisted
record, the provider queries issued, and the view. -/
def get_job_status (statusEnv : String → StatusResult)
    (fsExists : String → Bool) (fileSize : String → Nat) (job : Job)
    (now : Nat) : Job × List String × JobView :=
  let (job', queried) := reconcile statusEnv job now
  (job', queried, buildResponse fsExists fileSize job')

/-! ## Image ingestion on the accepting call
`generate_video` handler, video_generation.py lines 163-223: for an I2V
request with an uploaded file, try `image_upload_service.upload_image_content`
(object storage with fallback); on a non-exceptional failure, save the
bytes under `media/images/<uuid><ext>` and hand the dashscope layer a
localhost URL (which it converts to an inline base64 data URI); an
exception aborts with HTTP 500. -/

inductive UploadOutcome where
  | success (public_url : String)
  | failure (message : String)
  | raised (message : String)
deriving DecidableEq

structure IngestOutput where
  image_url : String
  savedLocally : Bool
deriving DecidableEq

/-- The image-handling prefix of the handler.  `apiUrl` is
`os.getenv("API_URL", "http://localhost:8000")`; `filename` is the
generated `uuid.uuid4().hex + file_ext` name.  `.error` is the aborting
HTTP 500. -/
def ingest_uploaded_image (upload : UploadOutcome) (apiUrl : String)
    (filename : String) : Except String IngestOutput :=
  match upload with
  | .success public_url => .ok { image_url := public_url, savedLocally := false }
  | .failure _ =>
      .ok { image_url := apiUrl ++ "/media/images/" ++ filename
            savedLocally := true }
  | .raised msg => .error ("图片上传处理失败: " ++ msg)

/-! ## Long-video generation
`_generate_long_video_aliyun`, lines 147-217 (t2v arm): one provider task
per planned segment, created in order; the first error return is
propagated as the result of the whole request.  `envs i` is the HTTP
environment of the i-th segment's creation call. -/

inductive LongResult where
  | segError (e : CreateResult T2VRequest)
  | ok (task_ids : List String) (segment_durations : List Nat)
deriving DecidableEq

def longLoop (apiKeyConfigured : Bool) (envs : Nat → Nat → HttpOutcome)
    (prompt resolution : String) (model : Option String)
    (audio prompt_extend : Bool) :
    List Nat → Nat → List String → CreateResult T2VRequest ⊕ List String
  | [], _, acc => .inr acc
  | seg_duration :: rest, i, acc =>
    match (generate_text_to_video apiKeyConfigured (envs i)
        (prompt ++ "（第" ++ toString (i + 1) ++ "段）") resolution
        seg_duration model audio prompt_extend).1 with
    | .created task_id _ =>
        longLoop apiKeyConfigured envs prompt resolution model audio
          prompt_extend rest (i + 1) (acc ++ [task_id])
    | e => .inl e

def generate_long_video_aliyun_t2v (apiKeyConfigured : Bool)
    (envs : Nat → Nat → HttpOutcome) (prompt resolution : String)
    (model : Option String) (audio prompt_extend : Bool) (duration : Nat) :
    LongResult :=
  match longLoop apiKeyConfigured envs prompt resolution model audio
      prompt_extend (segmentDurations duration) 0 [] with
  | .inl e => .segError e
  | .inr task_ids => .ok task_ids (segmentDurations duration)

/-- Whether a long-video result is the provider-rejection caused by a
segment duration outside the model's supported durations. -/
def isUnsupportedDurationError : LongResult → Bool
  | .segError (.unsupportedDuration _ _) => true
  | _ => false

/-! # Theorems -/

/-- C1: for every requested total duration D in [3,20] with the supported
per-call set `{5, 10}`, the planned segments (a single segment of D when
D ≤ 10, otherwise the output of the segmentation loop) sum exactly to D;
every segment except possibly the last belongs to `{5, 10}`; and a
remainder smaller than 5 is merged into the previous (last) segment rather
than emitted as its own segment (in the multi-segment regime no segment is
shorter than 5). -/
theorem planner_segments_correct (D : Nat) (h3 : 3 ≤ D) (h20 : D ≤ 20) :
    (plannedSegments D).sum = D ∧
    (D ≤ 10 → plannedSegments D = [D]) ∧
    (∀ s ∈ (plannedSegments D).dropLast, s = 5 ∨ s = 10) ∧
    (10 < D → ∀ s ∈ plannedSegments D, 5 ≤ s) := by
  interval_cases D <;> decide

theorem planner_segments_correct_witness :
    (3 ≤ 16 ∧ 16 ≤ 20) ∧
    ((plannedSegments 16).sum = 16 ∧
      (16 ≤ 10 → plannedSegments 16 = [16]) ∧
      (∀ s ∈ (plannedSegments 16).dropLast, s = 5 ∨ s = 10) ∧
      (10 < 16 → ∀ s ∈ plannedSegments 16, 5 ≤ s)) :=
  ⟨by decide, planner_segments_correct 16 (by decide) (by decide)⟩

/-- C3: for every requested duration D in {11,12,13,14,16,17,18,19} the
segmentation emits at least one segment whose duration lies outside the
default model's supported per-call durations {5,10}, and the long-video
driver (with an always-accepting provider) consequently fails with the
unsupported-duration rejection for that segment instead of producing a
plan of provider-legal calls. -/
theorem long_video_unsupported_segment (D : Nat)
    (hD : D ∈ [11, 12, 13, 14, 16, 17, 18, 19]) :
    (∃ s ∈ plannedSegments D, ¬(s = 5 ∨ s = 10)) ∧
    isUnsupportedDurationError
      (generate_long_video_aliyun_t2v true (fun _ _ => .ok 200 (some "tid"))
        "p" "720P" none true true D) = true := by
  fin_cases hD <;> exact ⟨by decide, by decide⟩

theorem long_video_unsupported_segment_witness :
    (16 : Nat) ∈ [11, 12, 13, 14, 16, 17, 18, 19] ∧
    ((∃ s ∈ plannedSegments 16, ¬(s = 5 ∨ s = 10)) ∧
      isUnsupportedDurationError
        (generate_long_video_aliyun_t2v true (fun _ _ => .ok 200 (some "tid"))
          "p" "720P" none true true 16) = true) :=
  ⟨by decide, long_video_unsupported_segment 16 (by decide)⟩

/-- C10: when the selected model's capability entry has
`supports_audio = false` (here `wan2.2-t2v-plus` and `wan2.2-i2v-flash`),
a request with `audio = true` is not rejected: for any requested audio
flag the provider task is created and the request body carries no audio
parameter, for both text-to-video and image-to-video creation. -/
theorem audio_silently_coerced :
    ∀ (a : Bool) (prompt : String),
      (generate_text_to_video true (fun _ => .ok 200 (some "t")) prompt
          "480P" 5 (some "wan2.2-t2v-plus") a true).1 =
        .created "t" ⟨"wan2.2-t2v-plus", prompt,
          { size := "832*480", duration := 5, prompt_extend := true
            audio := none }⟩ ∧
      (generate_image_to_video true (fun _ => "") (fun _ => none) "/m"
          (fun _ => .ok 200 (some "t")) "http://example.com/pic.png"
          (some prompt) "480P" 5 (some "wan2.2-i2v-flash") a true).1 =
        .created "t" ⟨"wan2.2-i2v-flash",
          ⟨"http://example.com/pic.png", some prompt⟩,
          { size := "832*480", duration := 5, prompt_extend := true
            audio := none }⟩ := by
  intro a prompt
  cases a <;> exact ⟨rfl, rfl⟩

/-- C5 counterexample: the claim says both creation functions retry
transient failures (5xx, connection reset, timeout) with at most 3
attempts.  In fact text-to-video creation surfaces an HTTP 500 after a
single attempt with no retry at all, and image-to-video creation surfaces
a request timeout after a single attempt. -/
theorem create_retry_counterexample :
    generate_text_to_video true (fun _ => .ok 500 none) "p" "720P" 5 none
        true true = (.httpError 500, 1) ∧
    generate_image_to_video true (fun _ => "") (fun _ => none) "/m"
        (fun _ => .timedOut) "http://example.com/a.png" none "720P" 5 none
        true true = (.timeoutError, 1) :=
  ⟨rfl, rfl⟩

theorem i2vLoop_attempts_le_three (env : Nat → HttpOutcome) :
    ∀ fuel, (i2vLoop env fuel).2 ≤ 3 := by
  intro fuel
  induction fuel with
  | zero => simp [i2vLoop]
  | succ n ih =>
    rw [i2vLoop]
    cases env (2 - n) <;> dsimp only <;> repeat' split
    all_goals first | exact ih | simp

theorem t2v_attempts_le_one (apiKeyConfigured : Bool)
    (env : Nat → HttpOutcome) (prompt resolution : String) (duration : Nat)
    (model : Option String) (audio prompt_extend : Bool) :
    (generate_text_to_video apiKeyConfigured env prompt resolution duration
      model audio prompt_extend).2 ≤ 1 := by
  unfold generate_text_to_video
  dsimp only
  repeat' split
  all_goals simp

theorem i2v_attempts_le_three (apiKeyConfigured : Bool)
    (b64 : List Nat → String) (fs : String → Option (List Nat))
    (mediaDir : String) (env : Nat → HttpOutcome) (image_url : String)
    (prompt : Option String) (resolution : String) (duration : Nat)
    (model : Option String) (audio prompt_extend : Bool) :
    (generate_image_to_video apiKeyConfigured b64 fs mediaDir env image_url
      prompt resolution duration model audio prompt_extend).2 ≤ 3 := by
  have hloop := i2vLoop_attempts_le_three env 3
  unfold generate_image_to_video
  dsimp only
  repeat' split
  all_goals simp_all

/-- C5 amended: text-to-video creation makes exactly one HTTP attempt and
never retries anything; image-to-video creation never exceeds 3 attempts,
never retries the fatal client errors 400/401/403/404 (surfacing them
after the first attempt), and retries persistent 502 responses and
persistent connection resets up to 3 attempts before surfacing failure —
but an image-to-video request timeout is surfaced after a single attempt
without retry. -/
theorem create_retry_policy (env : Nat → HttpOutcome) (c : Nat)
    (hc : c = 400 ∨ c = 401 ∨ c = 403 ∨ c = 404)
    (h0 : env 0 = .ok c none) :
    (∀ (env' : Nat → HttpOutcome) (p r : String) (d : Nat)
        (m : Option String) (a pe : Bool),
      (generate_text_to_video true env' p r d m a pe).2 ≤ 1) ∧
    (∀ (env' : Nat → HttpOutcome) (b64 : List Nat → String)
        (fs : String → Option (List Nat)) (md iu : String)
        (pr : Option String) (r : String) (d : Nat) (m : Option String)
        (a pe : Bool),
      (generate_image_to_video true b64 fs md env' iu pr r d m a pe).2 ≤ 3) ∧
    generate_image_to_video true (fun _ => "") (fun _ => none) "/m" env
        "http://example.com/a.png" none "720P" 5 none true true =
      (.httpError c, 1) ∧
    generate_image_to_video true (fun _ => "") (fun _ => none) "/m"
        (fun _ => .ok 502 none) "http://example.com/a.png" none "720P" 5
        none true true = (.httpError 502, 3) ∧
    generate_image_to_video true (fun _ => "") (fun _ => none) "/m"
        (fun _ => .connectError) "http://example.com/a.png" none "720P" 5
        none true true = (.otherError "ConnectError", 3) := by
  refine ⟨fun env' p r d m a pe => t2v_attempts_le_one true env' p r d m a pe,
    fun env' b64 fs md iu pr r d m a pe =>
      i2v_attempts_le_three true b64 fs md env' iu pr r d m a pe, ?_, rfl, rfl⟩
  have hl : i2vLoop env 3 = (.fatal c, 1) := by
    rw [show (3 : Nat) = 2 + 1 from rfl, i2vLoop]
    rw [show (2 - 2 : Nat) = 0 from rfl, h0]
    rcases hc with rfl | rfl | rfl | rfl <;> rfl
  unfold generate_image_to_video
  rw [hl]
  rcases hc with rfl | rfl | rfl | rfl <;> rfl

theorem create_retry_policy_witness :
    ((400 = 400 ∨ 400 = 401 ∨ 400 = 403 ∨ 400 = 404) ∧
      (fun _ : Nat => HttpOutcome.ok 400 none) 0 = .ok 400 none) ∧
    ((∀ (env' : Nat → HttpOutcome) (p r : String) (d : Nat)
        (m : Option String) (a pe : Bool),
      (generate_text_to_video true env' p r d m a pe).2 ≤ 1) ∧
    (∀ (env' : Nat → HttpOutcome) (b64 : List Nat → String)
        (fs : String → Option (List Nat)) (md iu : String)
        (pr : Option String) (r : String) (d : Nat) (m : Option String)
        (a pe : Bool),
      (generate_image_to_video true b64 fs md env' iu pr r d m a pe).2 ≤ 3) ∧
    generate_image_to_video true (fun _ => "") (fun _ => none) "/m"
        (fun _ : Nat => HttpOutcome.ok 400 none) "http://example.com/a.png"
        none "720P" 5 none true true = (.httpError 400, 1) ∧
    generate_image_to_video true (fun _ => "") (fun _ => none) "/m"
        (fun _ => .ok 502 none) "http://example.com/a.png" none "720P" 5
        none true true = (.httpError 502, 3) ∧
    generate_image_to_video true (fun _ => "") (fun _ => none) "/m"
        (fun _ => .connectError) "http://example.com/a.png" none "720P" 5
        none true true = (.otherError "ConnectError", 3)) :=
  ⟨⟨Or.inl rfl, rfl⟩,
    create_retry_policy (fun _ => .ok 400 none) 400 (Or.inl rfl) rfl⟩

/-- C2 counterexample: with segment 2-of-3 FAILED while segments 1 and 3
stay RUNNING, the sequential poller never observes the failure: it waits
on segment 1 until the 600-second deadline and the job is marked FAILED
with the timeout error, not with the failed segment's error; the status
endpoint likewise leaves the job's stored status unchanged in that
situation (it marks FAILED only when every segment failed). -/
theorem failfast_counterexample :
    wait_tasks
        (fun t _ => if t = "t2" then
            { status := some "FAILED", error := some "boom" }
          else { status := some "RUNNING" })
        600 10 62 ["t1", "t2", "t3"] 0 [] = .inl (.timeout "t1" 0) ∧
    process_video_generation
        { job_id := "j", engine := "aliyun", status := .concatenating
          task_ids := ["t1", "t2", "t3"] }
        (waitErrDict (.timeout "t1" 0)) 0 =
      { job_id := "j", engine := "aliyun", status := .failed
        error_message := some "任务超时", task_ids := ["t1", "t2", "t3"] } ∧
    (reconcile
        (fun t => if t = "t2" then
            { status := some "FAILED", error := some "boom" }
          else { status := some "RUNNING" })
        { job_id := "j", engine := "aliyun", status := .running
          task_ids := ["t1", "t2", "t3"] } 0).1.status = .running := by
  refine ⟨by decide, rfl, rfl⟩

/-- C2 amended: the poller visits segments in submission order; when the
segment it is currently polling is observed FAILED, the job is
immediately marked FAILED with an error naming that segment, without any
poll of the remaining segments (the result is independent of the sibling
task list and of the environment on it); but a failure of a later segment
is not acted on while an earlier segment is still non-terminal — the job
can instead run into the deadline. -/
theorem failfast_first_polled (statusEnv : String → Nat → StatusResult)
    (t : String) (ts : List String) (maxWait pollInterval fuel : Nat)
    (m : String) (job : Job) (now : Nat) (hfuel : 1 ≤ fuel)
    (h : statusEnv t 0 = { status := some "FAILED", error := some m }) :
    wait_tasks statusEnv maxWait pollInterval fuel (t :: ts) 0 [] =
      .inl (.taskFailed t m 0) ∧
    (process_video_generation job (waitErrDict (.taskFailed t m 0)) now).status
      = .failed ∧
    (process_video_generation job
        (waitErrDict (.taskFailed t m 0)) now).error_message
      = some ("任务" ++ t ++ "失败") := by
  obtain ⟨f, rfl⟩ : ∃ f, fuel = f + 1 := ⟨fuel - 1, by omega⟩
  have hp : pollOne statusEnv maxWait pollInterval t 0 (f + 1) 0 =
      .inl (.taskFailed t m 0) := by
    rw [pollOne]
    simp [h]
  refine ⟨?_, rfl, rfl⟩
  rw [wait_tasks]
  simp only [List.length_nil] at hp ⊢
  rw [hp]

theorem failfast_first_polled_witness :
    (1 ≤ 1 ∧
      (fun _ : String => fun _ : Nat =>
          ({ status := some "FAILED", error := some "boom" } : StatusResult))
        "x" 0 = { status := some "FAILED", error := some "boom" }) ∧
    (wait_tasks
        (fun _ _ => { status := some "FAILED", error := some "boom" })
        600 10 5 ["x", "y"] 0 [] = .inl (.taskFailed "x" "boom" 0) ∧
      (process_video_generation
          { job_id := "j", engine := "aliyun", status := .concatenating }
          (waitErrDict (.taskFailed "x" "boom" 0)) 0).status = .failed ∧
      (process_video_generation
          { job_id := "j", engine := "aliyun", status := .concatenating }
          (waitErrDict (.taskFailed "x" "boom" 0)) 0).error_message
        = some ("任务" ++ "x" ++ "失败")) :=
  ⟨⟨le_refl 1, rfl⟩,
    failfast_first_polled
      (fun _ _ => { status := some "FAILED", error := some "boom" })
      "x" ["y"] 600 10 5 "boom"
      { job_id := "j", engine := "aliyun", status := .concatenating }
      0 (by omega) rfl⟩

theorem pollOne_succeeded (statusEnv : String → Nat → StatusResult)
    (maxWait pollInterval : Nat) (t : String) (n fuel e : Nat) (p : String)
    (he : ¬ maxWait < e) (hf : 1 ≤ fuel)
    (h1 : (statusEnv t e).error = none)
    (h2 : (statusEnv t e).status = some "SUCCEEDED")
    (h3 : (statusEnv t e).local_path = some p) :
    pollOne statusEnv maxWait pollInterval t n fuel e = .inr (p, e) := by
  obtain ⟨f, rfl⟩ : ∃ f, fuel = f + 1 := ⟨fuel - 1, by omega⟩
  rw [pollOne]
  simp [he, h1, h2, h3]

theorem pollOne_nonterminal_timeout (statusEnv : String → Nat → StatusResult)
    (maxWait pollInterval : Nat) (t : String) (n : Nat)
    (hstuck : ∀ e, (statusEnv t e).error = none ∧
        (statusEnv t e).status ≠ some "SUCCEEDED" ∧
        (statusEnv t e).status ≠ some "FAILED") :
    ∀ fuel e, 1 ≤ fuel → maxWait < e + (fuel - 1) * pollInterval →
      pollOne statusEnv maxWait pollInterval t n fuel e =
        .inl (.timeout t n) := by
  intro fuel
  induction fuel with
  | zero => intro e h1 _; omega
  | succ f ih =>
    intro e _ h2
    simp only [Nat.add_sub_cancel] at h2
    rw [pollOne]
    by_cases he : maxWait < e
    · simp [he]
    · obtain ⟨herr, hs, hf2⟩ := hstuck e
      have hf1 : 1 ≤ f := by
        rcases Nat.eq_zero_or_pos f with h0 | h0
        · subst h0; simp at h2; omega
        · exact h0
      have h2' : maxWait < (e + pollInterval) + (f - 1) * pollInterval := by
        obtain ⟨g, rfl⟩ : ∃ g, f = g + 1 := ⟨f - 1, by omega⟩
        have harith : e + pollInterval + (g + 1 - 1) * pollInterval =
            e + (g + 1) * pollInterval := by
          rw [Nat.add_sub_cancel]; ring
        rw [harith]
        exact h2
      simp only [he, if_false, herr, hs, hf2]
      simpa [herr, hs, hf2] using ih (e + pollInterval) hf1 h2'

theorem wait_tasks_succeeded_prefix (statusEnv : String → Nat → StatusResult)
    (maxWait pollInterval fuel : Nat) (hf : 1 ≤ fuel) :
    ∀ (done : List String) (rest paths : List String),
      (∀ t ∈ done, (statusEnv t 0).error = none ∧
          (statusEnv t 0).status = some "SUCCEEDED" ∧
          (statusEnv t 0).local_path.isSome) →
      ∃ paths1 : List String,
        wait_tasks statusEnv maxWait pollInterval fuel (done ++ rest) 0
            paths =
          wait_tasks statusEnv maxWait pollInterval fuel rest 0
            (paths ++ paths1) ∧
        paths1.length = done.length := by
  intro done
  induction done with
  | nil => intro rest paths _; exact ⟨[], by simp, rfl⟩
  | cons t ds ih =>
    intro rest paths hdone
    obtain ⟨herr, hs, hlp⟩ := hdone t (List.mem_cons_self t ds)
    obtain ⟨p, hp⟩ := Option.isSome_iff_exists.mp hlp
    have hpoll := pollOne_succeeded statusEnv maxWait pollInterval t
      paths.length fuel 0 p (Nat.not_lt_zero maxWait) hf herr hs hp
    obtain ⟨paths1, heq, hlen⟩ := ih rest (paths ++ [p])
      (fun u hu => hdone u (List.mem_cons_of_mem t hu))
    refine ⟨p :: paths1, ?_, by simp [hlen]⟩
    rw [List.cons_append, wait_tasks]
    simp only [hpoll]
    rw [heq]
    congr 1
    simp

/-- C4: when a segment of a multi-segment job never reaches a terminal
state (and no failure was observed earlier), the poller stops once the
shared clock exceeds the job deadline: the result is the timeout error
dict retaining the number of segments that did complete, and the
background worker marks the job FAILED with that error — the job is never
left pending indefinitely. -/
theorem deadline_timeout_fails_job (statusEnv : String → Nat → StatusResult)
    (fsExists : String → Bool) (ffmpeg : FfmpegOutcome) (outputExists : Bool)
    (output_path : String) (done rest : List String) (stuck : String)
    (maxWait pollInterval fuel : Nat) (job : Job) (now : Nat)
    (hdone : ∀ t ∈ done, (statusEnv t 0).error = none ∧
        (statusEnv t 0).status = some "SUCCEEDED" ∧
        (statusEnv t 0).local_path.isSome)
    (hstuck : ∀ e, (statusEnv stuck e).error = none ∧
        (statusEnv stuck e).status ≠ some "SUCCEEDED" ∧
        (statusEnv stuck e).status ≠ some "FAILED")
    (hf : 1 ≤ fuel) (hfuel : maxWait < (fuel - 1) * pollInterval) :
    wait_and_concatenate statusEnv fsExists ffmpeg outputExists output_path
        maxWait pollInterval fuel (done ++ stuck :: rest) =
      { error := some "任务超时", completed_segments := some done.length } ∧
    process_video_generation job
        { error := some "任务超时", completed_segments := some done.length }
        now =
      { job with status := .failed, error_message := some "任务超时" } := by
  obtain ⟨paths1, heq, hlen⟩ := wait_tasks_succeeded_prefix statusEnv
    maxWait pollInterval fuel hf done (stuck :: rest) [] hdone
  have hstuckpoll := pollOne_nonterminal_timeout statusEnv maxWait
    pollInterval stuck done.length hstuck fuel 0 hf (by simpa using hfuel)
  have hwt : wait_tasks statusEnv maxWait pollInterval fuel
      (done ++ stuck :: rest) 0 [] = .inl (.timeout stuck done.length) := by
    rw [heq, wait_tasks]
    have hn : (([] : List String) ++ paths1).length = done.length := by
      simpa using hlen
    rw [hn, hstuckpoll]
  refine ⟨?_, rfl⟩
  unfold wait_and_concatenate
  rw [hwt]
  rfl

theorem deadline_timeout_fails_job_witness :
    ((∀ t ∈ ["a"],
        ((fun u (_ : Nat) => if u = "a" then
            ({ status := some "SUCCEEDED", local_path := some "pa" } :
              StatusResult)
          else { status := some "RUNNING" }) t 0).error = none ∧
        ((fun u (_ : Nat) => if u = "a" then
            ({ status := some "SUCCEEDED", local_path := some "pa" } :
              StatusResult)
          else { status := some "RUNNING" }) t 0).status = some "SUCCEEDED" ∧
        ((fun u (_ : Nat) => if u = "a" then
            ({ status := some "SUCCEEDED", local_path := some "pa" } :
              StatusResult)
          else { status := some "RUNNING" }) t 0).local_path.isSome) ∧
      (∀ e : Nat,
        ((fun u (_ : Nat) => if u = "a" then
            ({ status := some "SUCCEEDED", local_path := some "pa" } :
              StatusResult)
          else { status := some "RUNNING" }) "b" e).error = none ∧
        ((fun u (_ : Nat) => if u = "a" then
            ({ status := some "SUCCEEDED", local_path := some "pa" } :
              StatusResult)
          else { status := some "RUNNING" }) "b" e).status ≠
          some "SUCCEEDED" ∧
        ((fun u (_ : Nat) => if u = "a" then
            ({ status := some "SUCCEEDED", local_path := some "pa" } :
              StatusResult)
          else { status := some "RUNNING" }) "b" e).status ≠ some "FAILED") ∧
      1 ≤ 62 ∧ 600 < (62 - 1) * 10) ∧
    (wait_and_concatenate
        (fun u _ => if u = "a" then
            { status := some "SUCCEEDED", local_path := some "pa" }
          else { status := some "RUNNING" })
        (fun _ => true) .notInstalled false "/v/out.mp4" 600 10 62
        (["a"] ++ "b" :: ["c"]) =
      { error := some "任务超时"
        completed_segments := some (["a"] : List String).length } ∧
    process_video_generation
        { job_id := "j", engine := "aliyun", status := .concatenating }
        { error := some "任务超时"
          completed_segments := some (["a"] : List String).length } 3 =
      { job_id := "j", engine := "aliyun", status := .failed
        error_message := some "任务超时" }) :=
  ⟨⟨by intro t ht; fin_cases ht; exact ⟨rfl, rfl, rfl⟩,
    fun e => ⟨rfl, by simp, by simp⟩, by omega, by omega⟩,
    deadline_timeout_fails_job
      (fun u _ => if u = "a" then
          { status := some "SUCCEEDED", local_path := some "pa" }
        else { status := some "RUNNING" })
      (fun _ => true) .notInstalled false "/v/out.mp4" ["a"] ["c"] "b"
      600 10 62 { job_id := "j", engine := "aliyun", status := .concatenating }
      3
      (by intro t ht; fin_cases ht; exact ⟨rfl, rfl, rfl⟩)
      (fun e => ⟨rfl, by simp, by simp⟩) (by omega) (by omega)⟩

/-- C6 counterexample: when a remote task reports SUCCEEDED but the
artifact download fails, `get_task_status` returns status SUCCEEDED with a
download error and no local path, and the status-reconciliation pass then
marks the job SUCCEEDED while its local artifact path is still unset. -/
theorem succeeded_without_artifact_counterexample :
    get_task_status true
        (.ok { task_status := "SUCCEEDED", video_url := some "http://v/x.mp4"
               message := none, usage := none }) none =
      { status := some "SUCCEEDED", error := some "视频下载失败" } ∧
    (reconcile
        (fun _ => { status := some "SUCCEEDED", error := some "视频下载失败" })
        { job_id := "j", engine := "aliyun", status := .running
          task_ids := ["t"] } 7).1.status = .succeeded ∧
    (reconcile
        (fun _ => { status := some "SUCCEEDED", error := some "视频下载失败" })
        { job_id := "j", engine := "aliyun", status := .running
          task_ids := ["t"] } 7).1.local_path = none :=
  ⟨rfl, rfl, rfl⟩

theorem concatenate_ok_path (fsExists : String → Bool)
    (ffmpeg : FfmpegOutcome) (outputExists : Bool)
    (video_paths : List String) (output_path p : String)
    (h : (concatenate_videos fsExists ffmpeg outputExists video_paths
      output_path).1 = .ok p) : p = output_path := by
  unfold concatenate_videos at h
  repeat' split at h
  all_goals try dsimp only at h
  all_goals try injection h with hh
  all_goals first | exact hh.symm | exact ConcatResult.noConfusion h

/-- C6 amended: every job the background concatenation worker marks
SUCCEEDED has the concatenator's output path recorded as its local
artifact at that moment (an error-free result dict can only be the
concatenator's success dict); the reconciliation read path, by contrast,
can mark a job SUCCEEDED with no local path (see the counterexample). -/
theorem background_success_records_artifact
    (statusEnv : String → Nat → StatusResult) (fsExists : String → Bool)
    (ffmpeg : FfmpegOutcome) (outputExists : Bool) (output_path : String)
    (maxWait pollInterval fuel : Nat) (task_ids : List String) (job : Job)
    (now : Nat)
    (h : (wait_and_concatenate statusEnv fsExists ffmpeg outputExists
        output_path maxWait pollInterval fuel task_ids).error = none) :
    process_video_generation job
        (wait_and_concatenate statusEnv fsExists ffmpeg outputExists
          output_path maxWait pollInterval fuel task_ids) now =
      { job with status := .succeeded, local_path := some output_path
                 completed_at := some now } := by
  unfold wait_and_concatenate at h ⊢
  rcases hw : wait_tasks statusEnv maxWait pollInterval fuel task_ids 0 []
    with e | paths
  · rw [hw] at h
    cases e <;> simp [waitErrDict] at h
  · rw [hw] at h
    dsimp only at h ⊢
    by_cases hlen : paths.length = task_ids.length
    · rw [if_pos hlen] at h ⊢
      rcases hc : (concatenate_videos fsExists ffmpeg outputExists paths
          output_path).1 with _ | mp | q | st | _ | _ | m
      all_goals rw [hc] at h
      all_goals try (simp [concatDict] at h)
      have hq := concatenate_ok_path fsExists ffmpeg outputExists paths
        output_path q hc
      subst hq
      rfl
    · rw [if_neg hlen] at h
      simp at h

theorem background_success_records_artifact_witness :
    ((wait_and_concatenate
        (fun _ _ => { status := some "SUCCEEDED"
                      local_path := some "/v/s.mp4" })
        (fun _ => true) (.completed 0 "") true "/v/out.mp4" 600 10 5
        ["t"]).error = none) ∧
    process_video_generation
        { job_id := "j", engine := "aliyun", status := .concatenating }
        (wait_and_concatenate
          (fun _ _ => { status := some "SUCCEEDED"
                        local_path := some "/v/s.mp4" })
          (fun _ => true) (.completed 0 "") true "/v/out.mp4" 600 10 5
          ["t"]) 9 =
      { job_id := "j", engine := "aliyun", status := .succeeded,
        local_path := some "/v/out.mp4", completed_at := some 9 } :=
  ⟨rfl,
    background_success_records_artifact
      (fun _ _ => { status := some "SUCCEEDED", local_path := some "/v/s.mp4" })
      (fun _ => true) (.completed 0 "") true "/v/out.mp4" 600 10 5 ["t"]
      { job_id := "j", engine := "aliyun", status := .concatenating } 9 rfl⟩

/-- C7: for a job whose stored status is terminal (SUCCEEDED or FAILED),
the status query returns the cached record, issues no provider query and
does not modify the record, so a second consecutive query returns an
identical view. -/
theorem terminal_job_status_cached (statusEnv : String → StatusResult)
    (fsExists : String → Bool) (fileSize : String → Nat) (job : Job)
    (now now2 : Nat) (h : job.status = .succeeded ∨ job.status = .failed) :
    get_job_status statusEnv fsExists fileSize job now =
      (job, [], buildResponse fsExists fileSize job) ∧
    (get_job_status statusEnv fsExists fileSize
        (get_job_status statusEnv fsExists fileSize job now).1 now2).2.2 =
      (get_job_status statusEnv fsExists fileSize job now).2.2 := by
  have hrec : ∀ t : Nat, reconcile statusEnv job t = (job, []) := by
    intro t
    unfold reconcile
    rcases h with h | h <;> simp [h]
  have h1 : get_job_status statusEnv fsExists fileSize job now =
      (job, [], buildResponse fsExists fileSize job) := by
    unfold get_job_status
    rw [hrec now]
  refine ⟨h1, ?_⟩
  rw [h1]
  unfold get_job_status
  rw [hrec now2]

theorem terminal_job_status_cached_witness :
    (({ job_id := "j", engine := "aliyun", status := .succeeded, local_path := some "/v/out.mp4" } : Job).status = .succeeded ∨
      ({ job_id := "j", engine := "aliyun", status := .succeeded, local_path := some "/v/out.mp4" } : Job).status = .failed) ∧
    (get_job_status (fun _ => { status := some "RUNNING" }) (fun _ => true)
        (fun _ => 4)
        { job_id := "j", engine := "aliyun", status := .succeeded, local_path := some "/v/out.mp4" } 1 =
      ({ job_id := "j", engine := "aliyun", status := .succeeded, local_path := some "/v/out.mp4" }, [],
        buildResponse (fun _ => true) (fun _ => 4)
          { job_id := "j", engine := "aliyun", status := .succeeded, local_path := some "/v/out.mp4" }) ∧
    (get_job_status (fun _ => { status := some "RUNNING" }) (fun _ => true)
        (fun _ => 4)
        (get_job_status (fun _ => { status := some "RUNNING" })
          (fun _ => true) (fun _ => 4)
          { job_id := "j", engine := "aliyun", status := .succeeded, local_path := some "/v/out.mp4" } 1).1 2).2.2 =
      (get_job_status (fun _ => { status := some "RUNNING" }) (fun _ => true)
        (fun _ => 4)
        { job_id := "j", engine := "aliyun", status := .succeeded, local_path := some "/v/out.mp4" } 1).2.2) :=
  ⟨Or.inl rfl,
    terminal_job_status_cached (fun _ => { status := some "RUNNING" })
      (fun _ => true) (fun _ => 4)
      { job_id := "j", engine := "aliyun", status := .succeeded, local_path := some "/v/out.mp4" } 1 2 (Or.inl rfl)⟩

/-- C8: when the object-storage upload fails non-exceptionally, the I2V
request is not aborted: the handler keeps the bytes locally and hands the
provider layer a localhost URL, and the provider layer transports the
image as an inline MIME-tagged base64 data URI inside a created task's
request body (default `API_URL` of `http://localhost:8000`). -/
theorem ingestion_fallback_inline (content : List Nat)
    (b64 : List Nat → String) (msg : String) (prompt : Option String) :
    ingest_uploaded_image (.failure msg) "http://localhost:8000"
        "deadbeef.png" =
      .ok { image_url := "http://localhost:8000/media/images/deadbeef.png"
            savedLocally := true } ∧
    (generate_image_to_video true b64
        (fun p => if p = "/app/backend/media/images/deadbeef.png" then
            some content else none)
        "/app/backend/media/images" (fun _ => .ok 200 (some "tid"))
        "http://localhost:8000/media/images/deadbeef.png" prompt "720P" 5
        none true true).1 =
      .created "tid"
        ⟨"wan2.5-i2v-preview",
          ⟨"data:image/png;base64," ++ b64 content, prompt⟩,
          { size := "1280*720", duration := 5, prompt_extend := true
            audio := some true }⟩ :=
  ⟨rfl, rfl⟩

/-- C9 counterexample: when the ffmpeg subprocess times out, the
concatenator returns with the temporary concat-list manifest still on
disk — the cleanup only runs on the path where the subprocess returns. -/
theorem concat_manifest_counterexample :
    (concatenate_videos (fun _ => true) .timedOut false ["/v/a.mp4"]
      "/v/out.mp4").2 = true := by decide

/-- C9 amended: the temporary concat-list manifest is deleted before
return whenever the ffmpeg subprocess call returns (success and non-zero
exit alike), but it is left behind on every path where the subprocess
raises: ffmpeg timeout, ffmpeg not installed, and any other exception. -/
theorem concat_manifest_cleanup (fsExists : String → Bool)
    (video_paths : List String) (output_path : String) (rc : Int)
    (stderr : String) (outputExists : Bool) (msg : String)
    (hne : video_paths ≠ [])
    (hall : video_paths.find? (fun p => ! fsExists p) = none) :
    (concatenate_videos fsExists (.completed rc stderr) outputExists
      video_paths output_path).2 = false ∧
    (concatenate_videos fsExists .timedOut outputExists video_paths
      output_path).2 = true ∧
    (concatenate_videos fsExists .notInstalled outputExists video_paths
      output_path).2 = true ∧
    (concatenate_videos fsExists (.raised msg) outputExists video_paths
      output_path).2 = true := by
  refine ⟨?_, ?_, ?_, ?_⟩ <;> unfold concatenate_videos <;>
    simp [hne, hall] <;> (try split) <;> rfl

theorem concat_manifest_cleanup_witness :
    ((["/v/a.mp4"] : List String) ≠ [] ∧
      (["/v/a.mp4"] : List String).find?
        (fun p => ! (fun _ => true) p) = none) ∧
    ((concatenate_videos (fun _ => true) (.completed 1 "boom") false
        ["/v/a.mp4"] "/v/out.mp4").2 = false ∧
    (concatenate_videos (fun _ => true) .timedOut false ["/v/a.mp4"]
        "/v/out.mp4").2 = true ∧
    (concatenate_videos (fun _ => true) .notInstalled false ["/v/a.mp4"]
        "/v/out.mp4").2 = true ∧
    (concatenate_videos (fun _ => true) (.raised "oops") false ["/v/a.mp4"]
        "/v/out.mp4").2 = true) :=
  ⟨⟨by decide, by decide⟩,
    concat_manifest_cleanup (fun _ => true) ["/v/a.mp4"] "/v/out.mp4" 1
      "boom" false "oops" (by decide) (by decide)⟩

end VideoGen
